import Mathlib

/-!
Shallow embedding of `src/app.py` (Breakup Recovery App, a Streamlit page).

The page resolves a Gemini API credential at startup (secrets store first,
then environment variable), renders a consent checkbox, a narrative text
area and an image uploader, and on the "Get Recovery Plan" button press runs
one processing cycle: consent gate, agent construction, empty-input gate,
image materialization, then four sequential Role Agent invocations
(therapist, closure, routine planner, brutal honesty), each rendering a
section.

External effects are modelled explicitly:
  * `st.secrets.get` / `os.getenv` become `Option String` parameters;
  * whether the `Gemini`/`Agent` constructors raise becomes `Env.initOk`
    (the Python `try` wraps construction of all four agents at once);
  * whether writing one uploaded blob to disk raises becomes `Env.write_ok`;
  * whether `agent.run` raises becomes `Env.runOk`, and the text of a
    successful response becomes `Env.response_content`;
  * every Streamlit output call (`st.warning`, `st.error`, `st.header`,
    `st.subheader`, `st.markdown` of a response) and every `agent.run` call
    becomes an event of the cycle's event trace, in program order.
-/

namespace BreakupRecovery

/-- Python truthiness of `not api_key` for an optional string: `None` and the
empty string are falsy, any other string is truthy. -/
def pyFalsy : Option String → Bool
  | none => true
  | some s => s == ""

/-- Embeds lines 26-36 of `src/app.py`: `api_key = st.secrets.get("gemini_api_key")`
(with `None` on a raised lookup), then `if not api_key: api_key =
os.getenv("GEMINI_API_KEY")`. `secrets_val` is the secrets-store value,
`env_val` the environment variable, both `none` when absent. -/
def resolve_api_key (secrets_val env_val : Option String) : Option String :=
  let api_key := secrets_val
  if pyFalsy api_key then env_val else api_key

/-- The `st.error` text of line 41 of `src/app.py`. -/
def api_key_error_text : String := "❌ Gemini API key not found.\n\nPlease set it as:"

/-- The first `st.code` hint (line 42 of `src/app.py`); it names the secrets key. -/
def secrets_hint_text : String := "st.secrets['gemini_api_key'] = 'YOUR_KEY_HERE'"

/-- The second `st.code` hint (line 43 of `src/app.py`); it names the environment
variable. -/
def env_var_hint_text : String := "export GEMINI_API_KEY=YOUR_KEY"

/-- Outcome of module load: `halted msgs` models the `st.error`/`st.code`
output followed by `st.stop()` (lines 39-44 of `src/app.py`), after which no
submission handler exists; `running k` means the page is served with the
resolved key `k`. -/
inductive StartupResult where
  | halted (messages : List String)
  | running (api_key : String)
deriving DecidableEq

/-- Embeds the startup credential block of `src/app.py` (lines 26-44). -/
def startup (secrets_val env_val : Option String) : StartupResult :=
  let api_key := resolve_api_key secrets_val env_val
  if pyFalsy api_key then
    StartupResult.halted [api_key_error_text, secrets_hint_text, env_var_hint_text]
  else
    StartupResult.running (api_key.getD "")

/-- The `Gemini(id=..., api_key=...)` model value (line 51 of `src/app.py`). -/
structure Gemini where
  id : String
  api_key : String
deriving DecidableEq

/-- An `agno` Agent as configured in `src/app.py`: the shared model, a display
name, tool names, the instruction list and the markdown flag. -/
structure Agent where
  model : Gemini
  name : String
  tools : List String
  instructions : List String
  markdown : Bool
deriving DecidableEq

/-- The shared model built in `initialize_agents` (line 51 of `src/app.py`). -/
def gemini_model (api_key : String) : Gemini :=
  { id := "gemini-2.5-pro", api_key := api_key }

/-- The therapist agent (lines 53-67 of `src/app.py`). -/
def therapist_agent (model : Gemini) : Agent :=
  { model := model
    name := "Therapist Agent"
    tools := []
    instructions :=
      ["You are an empathetic therapist that:",
       "1. Listens with empathy and validates feelings",
       "2. Uses gentle humor to lighten the mood",
       "3. Shares relatable breakup experiences",
       "4. Offers comforting words and encouragement",
       "5. Analyzes both text and image inputs for emotional context",
       "6. If the user responds in hinglish, give the whole reply in hinglish or hindi",
       "Be supportive and understanding in your responses"]
    markdown := true }

/-- The closure agent (lines 69-82 of `src/app.py`). The Python source has no
comma after instruction 5, so the adjacent string literals concatenate into a
single sixth list element, reproduced here with `++`. -/
def closure_agent (model : Gemini) : Agent :=
  { model := model
    name := "Closure Agent"
    tools := []
    instructions :=
      ["You are a closure specialist that:",
       "1. Creates emotional messages for unsent feelings",
       "2. Helps express raw, honest emotions",
       "3. Formats messages clearly with headers",
       "4. Ensures tone is heartfelt and authentic",
       "5. If the user responds in hinglish, give the whole reply in hinglish or hindi"
         ++ "Focus on emotional release and closure"]
    markdown := true }

/-- The routine planner agent (lines 84-97 of `src/app.py`). -/
def routine_planner_agent (model : Gemini) : Agent :=
  { model := model
    name := "Routine Planner Agent"
    tools := []
    instructions :=
      ["You are a recovery routine planner that:",
       "1. Designs 7-day recovery challenges",
       "2. Includes fun activities and self-care tasks",
       "3. Suggests social media detox strategies",
       "4. Creates empowering playlists",
       "5. If the user responds in hinglish, give the whole reply in hinglish or hindi",
       "Focus on practical recovery steps"]
    markdown := true }

/-- The brutal honesty agent (lines 99-113 of `src/app.py`), the only one
carrying a tool (`DuckDuckGoTools`). -/
def brutal_honesty_agent (model : Gemini) : Agent :=
  { model := model
    name := "Brutal Honesty Agent"
    tools := ["DuckDuckGoTools"]
    instructions :=
      ["You are a direct feedback specialist that:",
       "1. Gives raw, objective feedback about breakups",
       "2. Explains relationship failures clearly",
       "3. Uses blunt, factual language",
       "4. Provides reasons to move forward",
       "5. If the user responds in hinglish, give the whole reply in hinglish or hindi",
       "Focus on honest insights without sugar-coating"]
    markdown := true }

/-- Embeds `initialize_agents` (lines 49-119 of `src/app.py`; renamed because
of a naming restriction of this development). One `try` wraps construction of
the model and all four agents, and the `except` branch returns
`(None, None, None, None)`; `initOk` is whether no exception was raised, so
the result is all-`some` or all-`none`. The `st.error` of the `except` branch
is emitted by the caller model `run_cycle`. -/
def init_agents (api_key : String) (initOk : Bool) :
    Option Agent × Option Agent × Option Agent × Option Agent :=
  if initOk then
    let model := gemini_model api_key
    (some (therapist_agent model), some (closure_agent model),
     some (routine_planner_agent model), some (brutal_honesty_agent model))
  else
    (none, none, none, none)

/-- Python `all([...])` over the four returned agent slots: an `Agent` object
is truthy, `None` falsy. -/
def py_all4 : Option Agent × Option Agent × Option Agent × Option Agent → Bool
  | (some _, some _, some _, some _) => true
  | _ => false

/-- An uploaded file as the handler sees it: display name (`file.name`) and
raw bytes (`file.getvalue()`). -/
structure UploadedFile where
  name : String
  value : List Nat
deriving DecidableEq

/-- An `AgnoImage(filepath=...)` handle (line 205 of `src/app.py`). -/
structure AgnoImage where
  filepath : String
deriving DecidableEq

/-- The transient path chosen for one blob (lines 199-200 of `src/app.py`):
`os.path.join(temp_dir, f"temp_{file.name}")`, with the POSIX join for a
directory that does not end in a slash. -/
def temp_path (temp_dir : String) (file : UploadedFile) : String :=
  temp_dir ++ "/" ++ ("temp_" ++ file.name)

/-- Embeds `process_images` (lines 195-211 of `src/app.py`). `write_ok f` is
whether writing blob `f` (and building its `AgnoImage`) raises no exception.
Returns the materialized handles in order and the `logger.error` messages
(one per skipped blob; the appended exception text is not modelled). -/
def process_images (temp_dir : String) (write_ok : UploadedFile → Bool) :
    List UploadedFile → List AgnoImage × List String
  | [] => ([], [])
  | file :: rest =>
    let out := process_images temp_dir write_ok rest
    if write_ok file then
      ({ filepath := temp_path temp_dir file } :: out.1, out.2)
    else
      (out.1, ("Error processing image " ++ file.name ++ ": ") :: out.2)

/-- The four Role Agent sites of the button handler, in source order. -/
inductive Role where
  | therapist
  | closure
  | routinePlanner
  | brutalHonesty
deriving DecidableEq

/-- The fixed source order of the four sections (lines 217-279 of `src/app.py`). -/
def role_order : List Role :=
  [Role.therapist, Role.closure, Role.routinePlanner, Role.brutalHonesty]

/-- The therapist prompt f-string (lines 219-228 of `src/app.py`), a
triple-quoted literal with its indentation kept verbatim. -/
def therapist_prompt (user_input : String) : String :=
  "\n        Analyze the emotional state based on:\n        User's message: "
    ++ user_input
    ++ "\n\n        Provide:\n        1. Validation of feelings\n        2. Gentle words of comfort\n        3. Relatable experiences\n        4. Encouragement\n        "

/-- The closure prompt f-string (lines 235-244 of `src/app.py`). -/
def closure_prompt (user_input : String) : String :=
  "\n        Create emotional closure content based on:\n        User's feelings: "
    ++ user_input
    ++ "\n\n        Include:\n        1. Templates for unsent messages\n        2. Emotional release exercises\n        3. Closure rituals\n        4. Moving forward guidance\n        "

/-- The routine planner prompt f-string (lines 251-260 of `src/app.py`). -/
def routine_prompt (user_input : String) : String :=
  "\n        Design a 7-day recovery plan based on:\n        "
    ++ user_input
    ++ "\n\n        Include:\n        1. Daily activities\n        2. Self-care routines\n        3. Social media detox guidelines\n        4. Music suggestions\n        "

/-- The brutal honesty prompt f-string (lines 267-276 of `src/app.py`). -/
def honesty_prompt (user_input : String) : String :=
  "\n        Provide honest feedback about:\n        "
    ++ user_input
    ++ "\n\n        Include:\n        1. Objective analysis\n        2. Growth opportunities\n        3. Future outlook\n        4. Concrete action steps\n        "

/-- The prompt built at each role's site. -/
def prompt_of (r : Role) (user_input : String) : String :=
  match r with
  | Role.therapist => therapist_prompt user_input
  | Role.closure => closure_prompt user_input
  | Role.routinePlanner => routine_prompt user_input
  | Role.brutalHonesty => honesty_prompt user_input

/-- The `st.subheader` heading rendered over each role's output. -/
def subheading_of : Role → String
  | Role.therapist => "🤗 Emotional Support"
  | Role.closure => "✍️ Finding Closure"
  | Role.routinePlanner => "📅 Your Recovery Plan"
  | Role.brutalHonesty => "💪 Honest Perspective"

/-- One observable step of a processing cycle, in program order:
Streamlit output calls and `agent.run` calls. `uncaughtException` marks an
exception escaping the handler (Streamlit then aborts the script run). -/
inductive Ev where
  | warning (msg : String)
  | errorMsg (msg : String)
  | header (text : String)
  | subheader (text : String)
  | markdownOut (text : String)
  | invoke (agentName : String) (prompt : String) (images : List AgnoImage)
  | uncaughtException (agentName : String)
deriving DecidableEq

/-- The external environment of one cycle: the temp directory, and which external
calls raise. -/
structure Env where
  temp_dir : String
  write_ok : UploadedFile → Bool
  initOk : Bool
  init_err_text : String
  runOk : Role → Bool
  response_content : Role → String

/-- The form state read by the handler: the consent checkbox, the narrative
text area and the uploaded files. -/
structure Submission where
  consent : Bool
  user_input : String
  uploaded_files : List UploadedFile

/-- Python truthiness of the narrative string. -/
def py_truthy_str (s : String) : Bool := !(s == "")

/-- Python truthiness of the uploaded-files list. -/
def py_truthy_files (l : List UploadedFile) : Bool := !l.isEmpty

/-- The value of `all_images` (line 213 of `src/app.py`):
`process_images(uploaded_files) if uploaded_files else []`. -/
def all_images_of (env : Env) (sub : Submission) : List AgnoImage :=
  if py_truthy_files sub.uploaded_files then
    (process_images env.temp_dir env.write_ok sub.uploaded_files).1
  else []

/-- Selects the role at each position of the constructed four-tuple. -/
def agent_of (agents : Agent × Agent × Agent × Agent) : Role → Agent
  | Role.therapist => agents.1
  | Role.closure => agents.2.1
  | Role.routinePlanner => agents.2.2.1
  | Role.brutalHonesty => agents.2.2.2

/-- The consent warning (line 181 of `src/app.py`). -/
def consent_warning_text : String :=
  "You must give consent before we can process your input."

/-- The empty-input warning (line 191 of `src/app.py`). -/
def empty_input_warning_text : String :=
  "Please share your feelings or upload screenshots."

/-- The handler error after a failed construction (line 187 of `src/app.py`). -/
def failed_init_error_text : String :=
  "Failed to initialize agents. Please check your configuration."

/-- The `st.header` text (line 215 of `src/app.py`). -/
def recovery_header_text : String := "Your Personalized Recovery Plan"

/-- The four sections of the handler (lines 217-279 of `src/app.py`), run in
order. Each site builds its prompt, calls `run` with the shared `all_images`,
and on success renders its subheader and the response content. The source has
no try/except around these calls, so a raised `run` becomes an uncaught
exception: the trace ends and no later section runs. -/
def run_sections (env : Env) (agents : Agent × Agent × Agent × Agent)
    (user_input : String) (all_images : List AgnoImage) : List Role → List Ev
  | [] => []
  | r :: rest =>
    Ev.invoke (agent_of agents r).name (prompt_of r user_input) all_images ::
      (if env.runOk r then
        Ev.subheader (subheading_of r) ::
          Ev.markdownOut (env.response_content r) ::
          run_sections env agents user_input all_images rest
      else
        [Ev.uncaughtException (agent_of agents r).name])

/-- Result of one button press: the event trace, and what
`initialize_agents` returned when it was called (`none`: never called). -/
structure CycleOut where
  events : List Ev
  constructed : Option (Option Agent × Option Agent × Option Agent × Option Agent)

/-- Embeds the "Get Recovery Plan" button handler (lines 177-279 of
`src/app.py`): consent gate (`st.stop`), agent construction, the
`all([...])` gate (`st.stop`), the empty-input gate (`st.stop`), image
materialization, then the four sections. -/
def run_cycle (api_key : String) (env : Env) (sub : Submission) : CycleOut :=
  if sub.consent = false then
    { events := [Ev.warning consent_warning_text], constructed := none }
  else
    let agents := init_agents api_key env.initOk
    let init_errs : List Ev :=
      if env.initOk then []
      else [Ev.errorMsg ("Error initializing agents: " ++ env.init_err_text)]
    match agents with
    | (some t_agent, some c_agent, some p_agent, some h_agent) =>
      if (py_truthy_str sub.user_input || py_truthy_files sub.uploaded_files) = false then
        { events := init_errs ++ [Ev.warning empty_input_warning_text],
          constructed := some agents }
      else
        { events := init_errs ++ Ev.header recovery_header_text ::
            run_sections env (t_agent, c_agent, p_agent, h_agent) sub.user_input
              (all_images_of env sub) role_order,
          constructed := some agents }
    | _ =>
      { events := init_errs ++ [Ev.errorMsg failed_init_error_text],
        constructed := some agents }

/-- The whole page: startup then (when not halted) one button press. When
startup halts, only the startup error output exists and no handler runs. -/
def app (secrets_val env_val : Option String) (env : Env) (sub : Submission) :
    List Ev :=
  match startup secrets_val env_val with
  | StartupResult.halted msgs => msgs.map Ev.errorMsg
  | StartupResult.running api_key => (run_cycle api_key env sub).events

/-- The `agent.run` calls of a trace: agent name, prompt, images. -/
def invocations (evs : List Ev) : List (String × String × List AgnoImage) :=
  evs.filterMap fun e =>
    match e with
    | Ev.invoke n p imgs => some (n, p, imgs)
    | _ => none

/-- The `st.warning` messages of a trace. -/
def warning_msgs (evs : List Ev) : List String :=
  evs.filterMap fun e =>
    match e with
    | Ev.warning m => some m
    | _ => none

/-- The `st.error` messages of a trace. -/
def error_msgs (evs : List Ev) : List String :=
  evs.filterMap fun e =>
    match e with
    | Ev.errorMsg m => some m
    | _ => none

/-- The `st.subheader` headings of a trace, in render order. -/
def subheads (evs : List Ev) : List String :=
  evs.filterMap fun e =>
    match e with
    | Ev.subheader t => some t
    | _ => none

/-! ## Concrete environments and submissions used by witnesses -/

/-- A concrete environment in which every external call succeeds. -/
def env0 : Env :=
  { temp_dir := "/tmp"
    write_ok := fun _ => true
    initOk := true
    init_err_text := ""
    runOk := fun _ => true
    response_content := fun _ => "ok" }

/-- A concrete environment in which agent construction raises. -/
def env_init_fails : Env :=
  { temp_dir := "/tmp"
    write_ok := fun _ => true
    initOk := false
    init_err_text := "bad credential"
    runOk := fun _ => true
    response_content := fun _ => "ok" }

/-- A concrete environment in which the first `agent.run` call raises and the
later ones would succeed. -/
def env_first_role_fails : Env :=
  { temp_dir := "/tmp"
    write_ok := fun _ => true
    initOk := true
    init_err_text := ""
    runOk := fun r => match r with | Role.therapist => false | _ => true
    response_content := fun _ => "ok" }

/-! ## Theorems -/

/-- C4: when the consent checkbox is unchecked, the handler stops with the
consent warning before anything else happens: the whole trace is that warning,
no `agent.run` call occurs, and `initialize_agents` is never even called,
whatever the narrative, the attachments and the environment. -/
theorem consent_gate_blocks_all_agents (api_key : String) (env : Env)
    (sub : Submission) (h : sub.consent = false) :
    (run_cycle api_key env sub).events = [Ev.warning consent_warning_text] ∧
    invocations (run_cycle api_key env sub).events = [] ∧
    (run_cycle api_key env sub).constructed = none := by
  simp [run_cycle, h, invocations]

/-- Witness for `consent_gate_blocks_all_agents` at a concrete submission. -/
theorem consent_gate_blocks_all_agents_witness :
    (run_cycle "KEY" env0
        { consent := false, user_input := "hi", uploaded_files := [] }).events =
      [Ev.warning consent_warning_text] ∧
    invocations (run_cycle "KEY" env0
        { consent := false, user_input := "hi", uploaded_files := [] }).events = [] ∧
    (run_cycle "KEY" env0
        { consent := false, user_input := "hi", uploaded_files := [] }).constructed =
      none :=
  consent_gate_blocks_all_agents "KEY" env0
    { consent := false, user_input := "hi", uploaded_files := [] } rfl

/-- C5: with consent granted but an empty narrative and no attachments, no
`agent.run` call ever occurs, and when agent construction does not raise the
cycle stops with exactly the empty-input warning. -/
theorem empty_input_gate_blocks_agents (api_key : String) (env : Env)
    (sub : Submission) (hc : sub.consent = true) (hu : sub.user_input = "")
    (hf : sub.uploaded_files = []) :
    invocations (run_cycle api_key env sub).events = [] ∧
    (env.initOk = true →
      (run_cycle api_key env sub).events = [Ev.warning empty_input_warning_text]) := by
  cases hinit : env.initOk with
  | true =>
    refine ⟨?_, fun _ => ?_⟩ <;>
      simp [run_cycle, hc, hinit, init_agents, py_truthy_str, py_truthy_files,
        hu, hf, invocations]
  | false =>
    refine ⟨?_, fun hco => by simp [hinit] at hco⟩
    simp [run_cycle, hc, hinit, init_agents, invocations]

/-- Witness for `empty_input_gate_blocks_agents` at a concrete submission. -/
theorem empty_input_gate_blocks_agents_witness :
    invocations (run_cycle "KEY" env0
        { consent := true, user_input := "", uploaded_files := [] }).events = [] ∧
    (env0.initOk = true →
      (run_cycle "KEY" env0
          { consent := true, user_input := "", uploaded_files := [] }).events =
        [Ev.warning empty_input_warning_text]) :=
  empty_input_gate_blocks_agents "KEY" env0
    { consent := true, user_input := "", uploaded_files := [] } rfl rfl rfl

/-- C7: when construction raises (the one `try` wraps the model and all four
agents, so a failure anywhere yields four `None`s), the cycle is fatal: the
returned tuple is all-`None`, an error is surfaced (the inner construction
error and the handler's), and zero agents are invoked. -/
theorem init_failure_is_fatal_to_cycle (api_key : String) (env : Env)
    (sub : Submission) (hc : sub.consent = true) (hi : env.initOk = false) :
    (run_cycle api_key env sub).constructed = some (none, none, none, none) ∧
    invocations (run_cycle api_key env sub).events = [] ∧
    (run_cycle api_key env sub).events =
      [Ev.errorMsg ("Error initializing agents: " ++ env.init_err_text),
       Ev.errorMsg failed_init_error_text] := by
  simp [run_cycle, hc, hi, init_agents, invocations]

/-- Witness for `init_failure_is_fatal_to_cycle` at a concrete submission. -/
theorem init_failure_is_fatal_to_cycle_witness :
    (run_cycle "KEY" env_init_fails
        { consent := true, user_input := "hi", uploaded_files := [] }).constructed =
      some (none, none, none, none) ∧
    invocations (run_cycle "KEY" env_init_fails
        { consent := true, user_input := "hi", uploaded_files := [] }).events = [] ∧
    (run_cycle "KEY" env_init_fails
        { consent := true, user_input := "hi", uploaded_files := [] }).events =
      [Ev.errorMsg ("Error initializing agents: " ++ env_init_fails.init_err_text),
       Ev.errorMsg failed_init_error_text] :=
  init_failure_is_fatal_to_cycle "KEY" env_init_fails
    { consent := true, user_input := "hi", uploaded_files := [] } rfl rfl

/-- C10: with consent granted, the handler calls `initialize_agents` before
the empty-input check, so even for an empty narrative with no attachments all
four Role Agents are constructed while none is ever invoked. -/
theorem agents_constructed_before_empty_check (api_key : String) (env : Env)
    (sub : Submission) (hc : sub.consent = true) (hi : env.initOk = true)
    (hu : sub.user_input = "") (hf : sub.uploaded_files = []) :
    (run_cycle api_key env sub).constructed =
      some (some (therapist_agent (gemini_model api_key)),
            some (closure_agent (gemini_model api_key)),
            some (routine_planner_agent (gemini_model api_key)),
            some (brutal_honesty_agent (gemini_model api_key))) ∧
    invocations (run_cycle api_key env sub).events = [] := by
  simp [run_cycle, hc, hi, init_agents, py_truthy_str, py_truthy_files, hu, hf,
    invocations]

/-- Witness for `agents_constructed_before_empty_check` at a concrete
submission. -/
theorem agents_constructed_before_empty_check_witness :
    (run_cycle "KEY" env0
        { consent := true, user_input := "", uploaded_files := [] }).constructed =
      some (some (therapist_agent (gemini_model "KEY")),
            some (closure_agent (gemini_model "KEY")),
            some (routine_planner_agent (gemini_model "KEY")),
            some (brutal_honesty_agent (gemini_model "KEY"))) ∧
    invocations (run_cycle "KEY" env0
        { consent := true, user_input := "", uploaded_files := [] }).events = [] :=
  agents_constructed_before_empty_check "KEY" env0
    { consent := true, user_input := "", uploaded_files := [] } rfl rfl rfl rfl

/-- C8: image materialization is per-item fault tolerant: the handles are
exactly one per blob whose write succeeded (in order, each at its own
computed path), so N blobs of which K fail yield N-K handles, and one failure
log entry is produced per failing blob. -/
theorem process_images_per_item_fault_tolerance (temp_dir : String)
    (write_ok : UploadedFile → Bool) (files : List UploadedFile) :
    (process_images temp_dir write_ok files).1 =
      (files.filter fun f => write_ok f).map
        (fun f => { filepath := temp_path temp_dir f }) ∧
    (process_images temp_dir write_ok files).1.length =
      files.length - (files.countP fun f => !(write_ok f)) ∧
    (process_images temp_dir write_ok files).2.length =
      files.countP fun f => !(write_ok f) := by
  induction files with
  | nil => exact ⟨rfl, rfl, rfl⟩
  | cons f rest ih =>
    obtain ⟨ih1, ih2, ih3⟩ := ih
    have hle : (rest.countP fun f => !(write_ok f)) ≤ rest.length :=
      List.countP_le_length _
    by_cases h : write_ok f
    · refine ⟨?_, ?_, ?_⟩
      · simp [process_images, h, ih1]
      · simp [process_images, h, List.countP_cons, ih2]
        omega
      · simp [process_images, h, List.countP_cons, ih3]
    · refine ⟨?_, ?_, ?_⟩
      · simp [process_images, h, ih1]
      · simp [process_images, h, List.countP_cons, ih2]
      · simp [process_images, h, List.countP_cons, ih3]

/-- C9 counterexample: two attachments of one cycle that carry the same
display name but different bytes are distinct blobs, yet `process_images`
writes both to the very same transient path (the second write overwrites the
first) and the two handles record the same location. -/
theorem temp_path_collision_same_name :
    ({ name := "a.png", value := [0] } : UploadedFile) ≠
      { name := "a.png", value := [1] } ∧
    temp_path "/tmp" { name := "a.png", value := [0] } =
      temp_path "/tmp" { name := "a.png", value := [1] } ∧
    (process_images "/tmp" (fun _ => true)
        [{ name := "a.png", value := [0] }, { name := "a.png", value := [1] }]).1 =
      [{ filepath := "/tmp/temp_a.png" }, { filepath := "/tmp/temp_a.png" }] := by
  refine ⟨by decide, rfl, by decide⟩

/-- C9 amended: the transient path of an attachment is derived solely from
its display name (`temp_dir/temp_<name>`), so two attachments of one cycle
get distinct transient paths exactly when their display names differ; two
same-named attachments share one path. -/
theorem temp_path_determined_by_name (temp_dir : String) (f g : UploadedFile) :
    temp_path temp_dir f = temp_path temp_dir g ↔ f.name = g.name := by
  constructor
  · intro h
    have h2 : (temp_dir ++ "/" ++ ("temp_" ++ f.name)).data =
        (temp_dir ++ "/" ++ ("temp_" ++ g.name)).data := congrArg String.data h
    simp only [String.data_append] at h2
    exact String.ext (List.append_cancel_left (List.append_cancel_left h2))
  · intro h
    simp [temp_path, h]

/-- C6: credential resolution takes the secrets-store value when it is a
non-empty string, falls back to the environment variable exactly when the
secrets value is absent or empty, and with both missing the page halts at
startup with the configuration error whose hint lines spell out the secrets
key name and the environment variable name — and then no handler exists, so
no submission is ever processed (no agent invocation can occur). -/
theorem credential_resolution_priority (k : String) (s e : Option String)
    (env : Env) (sub : Submission) :
    (pyFalsy (some k) = false → resolve_api_key (some k) e = some k) ∧
    (pyFalsy s = true → resolve_api_key s e = e) ∧
    (pyFalsy s = true → pyFalsy e = true →
      startup s e =
        StartupResult.halted [api_key_error_text, secrets_hint_text, env_var_hint_text] ∧
      (∃ a b, secrets_hint_text = a ++ "gemini_api_key" ++ b) ∧
      (∃ a b, env_var_hint_text = a ++ "GEMINI_API_KEY" ++ b) ∧
      invocations (app s e env sub) = []) := by
  refine ⟨fun h => by simp [resolve_api_key, h], fun h => by simp [resolve_api_key, h],
    fun hs he => ?_⟩
  have hst : startup s e =
      StartupResult.halted [api_key_error_text, secrets_hint_text, env_var_hint_text] := by
    simp [startup, resolve_api_key, hs, he]
  refine ⟨hst, ⟨"st.secrets['", "'] = 'YOUR_KEY_HERE'", by decide⟩,
    ⟨"export ", "=YOUR_KEY", by decide⟩, ?_⟩
  simp [app, hst, invocations]

/-- C2: in every cycle that reaches agent invocation and completes (consent
granted, construction succeeded, input non-empty, no `run` raises), exactly
four invocations occur; each carries its role's prompt embedding the
narrative verbatim (the prompt is literally prefix ++ narrative ++ suffix),
and the one materialized image list `all_images` is passed unchanged to all
four `run` calls. -/
theorem identical_inputs_to_all_agents (api_key : String) (env : Env)
    (sub : Submission) (hc : sub.consent = true) (hi : env.initOk = true)
    (hr : ∀ r, env.runOk r = true)
    (hne : (py_truthy_str sub.user_input || py_truthy_files sub.uploaded_files) = true) :
    invocations (run_cycle api_key env sub).events =
      [("Therapist Agent", therapist_prompt sub.user_input, all_images_of env sub),
       ("Closure Agent", closure_prompt sub.user_input, all_images_of env sub),
       ("Routine Planner Agent", routine_prompt sub.user_input, all_images_of env sub),
       ("Brutal Honesty Agent", honesty_prompt sub.user_input, all_images_of env sub)] ∧
    (∃ a b, therapist_prompt sub.user_input = a ++ sub.user_input ++ b) ∧
    (∃ a b, closure_prompt sub.user_input = a ++ sub.user_input ++ b) ∧
    (∃ a b, routine_prompt sub.user_input = a ++ sub.user_input ++ b) ∧
    (∃ a b, honesty_prompt sub.user_input = a ++ sub.user_input ++ b) := by
  refine ⟨?_, ⟨_, _, rfl⟩, ⟨_, _, rfl⟩, ⟨_, _, rfl⟩, ⟨_, _, rfl⟩⟩
  simp [run_cycle, hc, hi, init_agents, hne, role_order, run_sections,
    hr Role.therapist, hr Role.closure, hr Role.routinePlanner, hr Role.brutalHonesty,
    invocations, agent_of, prompt_of, therapist_agent, closure_agent,
    routine_planner_agent, brutal_honesty_agent]

/-- Witness for `identical_inputs_to_all_agents` at a concrete submission. -/
theorem identical_inputs_to_all_agents_witness :
    invocations (run_cycle "KEY" env0
        { consent := true, user_input := "hi", uploaded_files := [] }).events =
      [("Therapist Agent", therapist_prompt "hi",
         all_images_of env0 { consent := true, user_input := "hi", uploaded_files := [] }),
       ("Closure Agent", closure_prompt "hi",
         all_images_of env0 { consent := true, user_input := "hi", uploaded_files := [] }),
       ("Routine Planner Agent", routine_prompt "hi",
         all_images_of env0 { consent := true, user_input := "hi", uploaded_files := [] }),
       ("Brutal Honesty Agent", honesty_prompt "hi",
         all_images_of env0 { consent := true, user_input := "hi", uploaded_files := [] })] ∧
    (∃ a b, therapist_prompt "hi" = a ++ "hi" ++ b) ∧
    (∃ a b, closure_prompt "hi" = a ++ "hi" ++ b) ∧
    (∃ a b, routine_prompt "hi" = a ++ "hi" ++ b) ∧
    (∃ a b, honesty_prompt "hi" = a ++ "hi" ++ b) :=
  identical_inputs_to_all_agents "KEY" env0
    { consent := true, user_input := "hi", uploaded_files := [] } rfl rfl
    (fun _ => rfl) rfl

/-- C3: in every cycle that reaches agent invocation and completes, the four
agents are invoked, and their four sections rendered, in exactly the fixed
order therapist, closure, routine planner, brutal honesty — the handler is a
straight-line sequence, so no other order can arise. -/
theorem fixed_role_order (api_key : String) (env : Env)
    (sub : Submission) (hc : sub.consent = true) (hi : env.initOk = true)
    (hr : ∀ r, env.runOk r = true)
    (hne : (py_truthy_str sub.user_input || py_truthy_files sub.uploaded_files) = true) :
    (invocations (run_cycle api_key env sub).events).map Prod.fst =
      ["Therapist Agent", "Closure Agent", "Routine Planner Agent",
       "Brutal Honesty Agent"] ∧
    subheads (run_cycle api_key env sub).events =
      ["🤗 Emotional Support", "✍️ Finding Closure", "📅 Your Recovery Plan",
       "💪 Honest Perspective"] := by
  constructor <;>
    simp [run_cycle, hc, hi, init_agents, hne, role_order, run_sections,
      hr Role.therapist, hr Role.closure, hr Role.routinePlanner, hr Role.brutalHonesty,
      invocations, subheads, subheading_of, agent_of, prompt_of, therapist_agent,
      closure_agent, routine_planner_agent, brutal_honesty_agent]

/-- Witness for `fixed_role_order` at a concrete submission. -/
theorem fixed_role_order_witness :
    (invocations (run_cycle "KEY" env0
        { consent := true, user_input := "hi", uploaded_files := [] }).events).map
      Prod.fst =
      ["Therapist Agent", "Closure Agent", "Routine Planner Agent",
       "Brutal Honesty Agent"] ∧
    subheads (run_cycle "KEY" env0
        { consent := true, user_input := "hi", uploaded_files := [] }).events =
      ["🤗 Emotional Support", "✍️ Finding Closure", "📅 Your Recovery Plan",
       "💪 Honest Perspective"] :=
  fixed_role_order "KEY" env0
    { consent := true, user_input := "hi", uploaded_files := [] } rfl rfl
    (fun _ => rfl) rfl

/-- Witness for `credential_resolution_priority`: the inner implications
discharged at concrete values (non-empty secrets value wins; absent secrets
value falls back; both absent halts startup and no invocation ever occurs). -/
theorem credential_resolution_priority_witness :
    resolve_api_key (some "KEY") none = some "KEY" ∧
    resolve_api_key none none = none ∧
    startup none none =
      StartupResult.halted [api_key_error_text, secrets_hint_text, env_var_hint_text] ∧
    invocations (app none none env0
      { consent := true, user_input := "hi", uploaded_files := [] }) = [] := by
  have h := credential_resolution_priority "KEY" none none env0
    { consent := true, user_input := "hi", uploaded_files := [] }
  exact ⟨h.1 rfl, h.2.1 rfl, (h.2.2 rfl rfl).1, (h.2.2 rfl rfl).2.2.2⟩

/-- C1 (evaluating the code at the failing input): with consent granted, a
non-empty narrative, successful construction, and a therapist `run` call that
raises, the handler has no per-role guard, so the exception escapes: the
trace ends right after the failed call — only the therapist was invoked, no
role-scoped error notice (`st.error`) is rendered in its place, and the
closure, routine-planner and honesty sections never run and render nothing. -/
theorem therapist_failure_aborts_remaining_roles :
    (run_cycle "KEY" env_first_role_fails
        { consent := true, user_input := "hello", uploaded_files := [] }).events =
      [Ev.header recovery_header_text,
       Ev.invoke "Therapist Agent" (therapist_prompt "hello") [],
       Ev.uncaughtException "Therapist Agent"] ∧
    invocations (run_cycle "KEY" env_first_role_fails
        { consent := true, user_input := "hello", uploaded_files := [] }).events =
      [("Therapist Agent", therapist_prompt "hello", [])] ∧
    error_msgs (run_cycle "KEY" env_first_role_fails
        { consent := true, user_input := "hello", uploaded_files := [] }).events = [] ∧
    subheads (run_cycle "KEY" env_first_role_fails
        { consent := true, user_input := "hello", uploaded_files := [] }).events = [] := by
  refine ⟨rfl, rfl, rfl, rfl⟩

end BreakupRecovery
